import Mathlib

/-!
Verification development for the vCenter VM reconfiguration utilities
(`add_ptp_to_vm.py` and `add_vmotion_notification_to_vm.py`).

The Python scripts are shallowly embedded: each relevant Python function is
translated into an executable Lean definition of the same name.  The vSphere
platform (tasks, power operations, reconfiguration effects) is a parameter:
a `Platform` supplies, for the i-th task issued on a VM, the state history of
that task (state observed at its j-th polling second).  Printed diagnostics
that carry semantic content (timeout vs. task error) are modelled as a log of
`LogMsg` values; sleeps and state polls are recorded as `WAct` actions so
that pacing behaviour is observable.
-/

namespace VcfVm

/-- Power state of a virtual machine (`vim.VirtualMachinePowerState`). -/
inductive PowerState
  | poweredOn
  | poweredOff
  | suspended
deriving DecidableEq, Repr

/-- Backing of a virtual precision-clock device
(`VirtualPrecisionClock.SystemClockBackingInfo`). -/
inductive ClockBacking
  | systemClock
deriving DecidableEq, Repr

/-- A virtual device in a VM's hardware list.  The scripts only distinguish
precision-clock devices (`isinstance(device, vim.vm.device.VirtualPrecisionClock)`)
from everything else; every device carries an integer key. -/
inductive VDevice
  | precisionClock (key : Int) (backing : ClockBacking)
  | other (key : Int)
deriving DecidableEq, Repr

/-- The `isinstance(device, vim.vm.device.VirtualPrecisionClock)` test. -/
def isPtpDevice : VDevice → Bool
  | .precisionClock _ _ => true
  | .other _ => false

/-- Key of a device. -/
def keyOf : VDevice → Int
  | .precisionClock k _ => k
  | .other k => k

/-- Replace the key of a device (used when the platform assigns a key on add). -/
def setKey : VDevice → Int → VDevice
  | .precisionClock _ b, k => .precisionClock k b
  | .other _, k => .other k

/-- A device-change entry of a reconfiguration request
(`vim.vm.device.VirtualDeviceSpec`): an add or a remove of one device. -/
inductive DevOperation
  | add
  | remove
deriving DecidableEq, Repr

structure VirtualDeviceSpec where
  operation : DevOperation
  device : VDevice
deriving DecidableEq, Repr

/-- A reconfiguration request (`vim.vm.ConfigSpec`), restricted to the fields
the two scripts use: a device-change list (PTP script) and the two optional
VM-operation notification fields (notification script).  `none` models a field
left unset on the spec object. -/
structure ConfigSpec where
  deviceChange : List VirtualDeviceSpec
  vmOpNotificationToAppEnabled : Option Bool
  vmOpNotificationTimeout : Option Int
deriving DecidableEq, Repr

/-- The empty reconfiguration request (`vim.vm.ConfigSpec()` with nothing set). -/
def emptySpec : ConfigSpec := ⟨[], none, none⟩

/-- Snapshot of a managed VM: its name, power state, hardware device list and
the two notification config fields (`none` = unset on the platform). -/
structure VM where
  name : String
  powerState : PowerState
  devices : List VDevice
  vmOpNotificationToAppEnabled : Option Bool
  vmOpNotificationTimeout : Option Int
deriving DecidableEq, Repr

/-- State of an asynchronous platform task (`vim.TaskInfo.State`), as observed
by a poll.  Terminal states are `success` and `error` (with the
platform-reported error message). -/
inductive TaskState
  | running
  | success
  | error (msg : String)
deriving DecidableEq, Repr

/-- Local actions a waiting loop performs, recorded in order: a poll of the
task state, or a one-second sleep (`time.sleep(1)`). -/
inductive WAct
  | poll
  | sleepOne
deriving DecidableEq, Repr

/-- Semantic log messages printed by the waiting loops: the timeout
diagnostic (`Task timed out after {timeout} seconds`) or the task-failure
diagnostic carrying the platform error (`Task failed: {err}`). -/
inductive LogMsg
  | timedOutAfter (timeout : Nat)
  | taskFailed (err : String)
deriving DecidableEq, Repr

/-- Result of `wait_for_task`: the returned boolean, the semantic log
messages printed, and the poll/sleep actions performed, in order. -/
structure WaitResult where
  ret : Bool
  log : List LogMsg
  acts : List WAct
deriving DecidableEq, Repr

/-- One iteration step of `VCenterManager.wait_for_task`'s loop, embedded from
the Python source:

    while task.info.state not in [success, error]:
        if time.time() - start_time > timeout: print(timed out); return False
        time.sleep(1)
    if state == success: return True else: print(failed, error); return False

`k` is the number of sleeps performed so far, which equals the elapsed whole
seconds (polls and checks take negligible time).  `fuel` is the number of
remaining iterations before the elapsed-time check must fire; the caller
(`wait_for_task`) passes `fuel = timeout + 1 - k`, so the fuel-exhausted case
coincides exactly with the `time.time() - start_time > timeout` return. -/
def waitSteps (task : Nat → TaskState) (timeout : Nat) : Nat → Nat → WaitResult
  | k, 0 =>
    match task k with
    | .success => ⟨true, [], [.poll]⟩
    | .error msg => ⟨false, [.taskFailed msg], [.poll]⟩
    | .running => ⟨false, [.timedOutAfter timeout], [.poll]⟩
  | k, fuel + 1 =>
    match task k with
    | .success => ⟨true, [], [.poll]⟩
    | .error msg => ⟨false, [.taskFailed msg], [.poll]⟩
    | .running =>
      if timeout < k then ⟨false, [.timedOutAfter timeout], [.poll]⟩
      else
        let r := waitSteps task timeout (k + 1) fuel
        ⟨r.ret, r.log, WAct.poll :: WAct.sleepOne :: r.acts⟩

/-- `VCenterManager.wait_for_task(task, timeout)`: poll the task state once a
second until it leaves `running`, returning `True` on success and `False`
(with a diagnostic) on error or once more than `timeout` seconds elapsed.
The default timeout at every call site in the script is 300. -/
def wait_for_task (task : Nat → TaskState) (timeout : Nat) : WaitResult :=
  waitSteps task timeout 0 (timeout + 1)

/-- Result of the notification script's inline wait loop: `none` when the
loop has not terminated within the observed number of iterations (the real
loop would still be spinning), otherwise the returned boolean; plus the log
and the poll/sleep actions performed. -/
structure BusyWaitResult where
  res : Option Bool
  log : List LogMsg
  acts : List WAct
deriving DecidableEq, Repr

/-- The wait loop inside `set_vm_notification_settings`, embedded from the
Python source:

    while task.info.state not in [success, error]:
        pass
    if state == success: return True else: print(error msg); return False

The body is `pass`: the loop polls the state again immediately, with no sleep
and no timeout.  `fuel` bounds the number of observed iterations so the
embedding stays total; `none` models the loop still spinning after `fuel`
polls. -/
def busyWaitFrom (task : Nat → TaskState) : Nat → Nat → BusyWaitResult
  | 0, _ => ⟨none, [], []⟩
  | fuel + 1, k =>
    match task k with
    | .success => ⟨some true, [], [.poll]⟩
    | .error msg => ⟨some false, [.taskFailed msg], [.poll]⟩
    | .running =>
      let r := busyWaitFrom task fuel (k + 1)
      ⟨r.res, r.log, WAct.poll :: r.acts⟩

/-- The notification script's wait, started at poll 0. -/
def busyWait (task : Nat → TaskState) (fuel : Nat) : BusyWaitResult :=
  busyWaitFrom task fuel 0

/-- `get_vm_by_name`: scan the flat VM inventory and return the first VM whose
name matches exactly, or `None`.  Identical in both scripts. -/
def get_vm_by_name (inventory : List VM) (vm_name : String) : Option VM :=
  inventory.find? (fun vm => vm.name == vm_name)

/-- `VCenterManager.has_ptp_device`: scan the VM's device list for a
precision-clock device. -/
def has_ptp_device (vm : VM) : Bool :=
  vm.devices.any isPtpDevice

/-- `VCenterManager.get_ptp_device`: first precision-clock device of the VM,
or `None`. -/
def get_ptp_device (vm : VM) : Option VDevice :=
  vm.devices.find? isPtpDevice

/-- The platform side of one orchestration run: `taskOf i j` is the state of
the i-th asynchronous task issued during the run, as observed by that task's
poll at elapsed second `j`. -/
structure Platform where
  taskOf : Nat → Nat → TaskState

/-- Operations submitted to the platform, in order: the power-off task, the
power-on task, or a reconfiguration task carrying its `ConfigSpec`. -/
inductive POp
  | powerOffTask
  | powerOnTask
  | reconfigTask (spec : ConfigSpec)
deriving DecidableEq, Repr

/-- Running state threaded through one VM's orchestration: the platform-side
VM snapshot, the operations issued so far, and the index of the next task. -/
structure ProcState where
  vm : VM
  ops : List POp
  nextTask : Nat
deriving Repr

/-- A fresh device key, strictly larger than every key already in use. -/
def freshKey (devices : List VDevice) : Int :=
  (devices.map keyOf).foldl max 0 + 1

/-- Modelled from the spec: the platform applying one device-change entry of
a `ReconfigurationRequest` (spec sections 3 and 4.5).  An `add` appends the
new device with a platform-assigned key ("key (integer, platform-assigned on
add)"); a `remove` deletes the device identified by the submitted device's
key.  The platform itself is not part of the repository source, so its
apply-semantics follow the spec's words. -/
def applyDeviceChange (devices : List VDevice) (ds : VirtualDeviceSpec) : List VDevice :=
  match ds.operation with
  | .add => devices ++ [setKey ds.device (freshKey devices)]
  | .remove => devices.filter (fun d => keyOf d != keyOf ds.device)

/-- Modelled from the spec: the platform applying a whole
`ReconfigurationRequest` delta to a VM (spec sections 3 and 4.5): device
changes are applied in order, and each notification field is overwritten only
when set in the delta ("omitting a field leaves that field unchanged on the
platform — partial-update semantics, not full overwrite").  A task that ends
in `error` or times out applies no delta (spec section 4.6: a failed edit
means "change didn't take"; section 5: a timed-out task is "assumed not
completed"). -/
def applyConfigSpec (vm : VM) (spec : ConfigSpec) : VM :=
  { vm with
    devices := spec.deviceChange.foldl applyDeviceChange vm.devices
    vmOpNotificationToAppEnabled :=
      match spec.vmOpNotificationToAppEnabled with
      | some e => some e
      | none => vm.vmOpNotificationToAppEnabled
    vmOpNotificationTimeout :=
      match spec.vmOpNotificationTimeout with
      | some t => some t
      | none => vm.vmOpNotificationTimeout }

/-- `VCenterManager.power_off_vm`: submit `PowerOffVM_Task` and await it with
the default 300-second timeout; on success the platform VM is powered off. -/
def power_off_vm (p : Platform) (s : ProcState) : Bool × ProcState :=
  if (wait_for_task (p.taskOf s.nextTask) 300).ret then
    (true, ⟨{ s.vm with powerState := PowerState.poweredOff },
            s.ops ++ [POp.powerOffTask], s.nextTask + 1⟩)
  else
    (false, ⟨s.vm, s.ops ++ [POp.powerOffTask], s.nextTask + 1⟩)

/-- `VCenterManager.power_on_vm`: submit `PowerOnVM_Task` and await it with
the default 300-second timeout; on success the platform VM is powered on. -/
def power_on_vm (p : Platform) (s : ProcState) : Bool × ProcState :=
  if (wait_for_task (p.taskOf s.nextTask) 300).ret then
    (true, ⟨{ s.vm with powerState := PowerState.poweredOn },
            s.ops ++ [POp.powerOnTask], s.nextTask + 1⟩)
  else
    (false, ⟨s.vm, s.ops ++ [POp.powerOnTask], s.nextTask + 1⟩)

/-- Submit `ReconfigVM_Task(spec)` and await it with the default 300-second
timeout; on success the platform applies the delta to the VM. -/
def submitReconfig (p : Platform) (s : ProcState) (spec : ConfigSpec) : Bool × ProcState :=
  if (wait_for_task (p.taskOf s.nextTask) 300).ret then
    (true, ⟨applyConfigSpec s.vm spec,
            s.ops ++ [POp.reconfigTask spec], s.nextTask + 1⟩)
  else
    (false, ⟨s.vm, s.ops ++ [POp.reconfigTask spec], s.nextTask + 1⟩)

/-- The `ConfigSpec` that `VCenterManager.add_ptp_device` builds: one `add`
device-change entry for a new precision clock with key `-1` (auto-assign) and
system-clock backing. -/
def addPtpSpec : ConfigSpec :=
  ⟨[⟨DevOperation.add, VDevice.precisionClock (-1) ClockBacking.systemClock⟩], none, none⟩

/-- `VCenterManager.add_ptp_device`: build the add-PTP delta, submit the
reconfiguration task and await it. -/
def add_ptp_device (p : Platform) (s : ProcState) : Bool × ProcState :=
  submitReconfig p s addPtpSpec

/-- `VCenterManager.remove_ptp_device`: look up the existing PTP device; if
none is found, print a diagnostic and return `False` without submitting any
request; otherwise submit a one-entry `remove` delta for it and await it. -/
def remove_ptp_device (p : Platform) (s : ProcState) : Bool × ProcState :=
  match get_ptp_device s.vm with
  | none => (false, s)
  | some d => submitReconfig p s ⟨[⟨DevOperation.remove, d⟩], none, none⟩

/-- The action selected on the command line (mutually exclusive group). -/
inductive Action
  | read
  | enable
  | disable
deriving DecidableEq, Repr

/-- Tail of the `enable` branch of `process_vm`, after the optional power-off:

    success = self.add_ptp_device(vm)
    if was_powered_on and success:
        time.sleep(2)
        if not self.power_on_vm(vm): return False
    return success
-/
def enableEdit (p : Platform) (wasOn : Bool) (s1 : ProcState) : Option Bool × ProcState :=
  let r := add_ptp_device p s1
  if wasOn && r.1 then
    let r2 := power_on_vm p r.2
    if r2.1 then (some r.1, r2.2) else (some false, r2.2)
  else (some r.1, r.2)

/-- The `enable` branch of `process_vm`: skip when a PTP device is already
present; otherwise power off first exactly when the VM is powered on, then
add the device, then (only when the VM was powered on and the add succeeded)
power it back on. -/
def enableFlow (p : Platform) (s0 : ProcState) : Option Bool × ProcState :=
  if has_ptp_device s0.vm then (none, s0)
  else if s0.vm.powerState = PowerState.poweredOn then
    let r := power_off_vm p s0
    if r.1 then enableEdit p true r.2 else (some false, r.2)
  else enableEdit p false s0

/-- Tail of the `disable` branch of `process_vm`, after the optional
power-off (same shape as `enableEdit` with the remove edit). -/
def disableEdit (p : Platform) (wasOn : Bool) (s1 : ProcState) : Option Bool × ProcState :=
  let r := remove_ptp_device p s1
  if wasOn && r.1 then
    let r2 := power_on_vm p r.2
    if r2.1 then (some r.1, r2.2) else (some false, r2.2)
  else (some r.1, r.2)

/-- The `disable` branch of `process_vm`: skip when no PTP device is present;
otherwise the power-off / remove / power-on bracket. -/
def disableFlow (p : Platform) (s0 : ProcState) : Option Bool × ProcState :=
  if has_ptp_device s0.vm then
    if s0.vm.powerState = PowerState.poweredOn then
      let r := power_off_vm p s0
      if r.1 then disableEdit p true r.2 else (some false, r.2)
    else disableEdit p false s0
  else (none, s0)

/-- Outcome of `process_vm` for one VM: the Python return value
(`True` = `some true`, `False` = `some false`, `None` (skipped) = `none`),
the platform operations issued in order, and the final platform-side VM
snapshot (`none` when the VM was not found). -/
structure ProcOutcome where
  result : Option Bool
  ops : List POp
  finalVM : Option VM
deriving DecidableEq, Repr

/-- `VCenterManager.process_vm(vm_name, action)`: look the VM up by name
(returning `False` with no operations when absent), then dispatch on the
action: `read` only reports the device status and returns `True`;
`enable`/`disable` run the idempotency-checked power/edit/power flows. -/
def process_vm (p : Platform) (inventory : List VM) (vm_name : String)
    (action : Action) : ProcOutcome :=
  match get_vm_by_name inventory vm_name with
  | none => ⟨some false, [], none⟩
  | some vm =>
    let s0 : ProcState := ⟨vm, [], 0⟩
    match action with
    | .read => ⟨some true, [], some vm⟩
    | .enable =>
      let r := enableFlow p s0
      ⟨r.1, r.2.ops, some r.2.vm⟩
    | .disable =>
      let r := disableFlow p s0
      ⟨r.1, r.2.ops, some r.2.vm⟩

/-- The delta built by `set_vm_notification_settings`:

    spec = vim.vm.ConfigSpec()
    if enabled is not None: spec.vmOpNotificationToAppEnabled = enabled
    if timeout is not None: spec.vmOpNotificationTimeout = timeout
-/
def buildNotifSpec (timeout : Option Int) (enabled : Option Bool) : ConfigSpec :=
  let spec := emptySpec
  let spec :=
    match enabled with
    | some e => { spec with vmOpNotificationToAppEnabled := some e }
    | none => spec
  match timeout with
  | some t => { spec with vmOpNotificationTimeout := some t }
  | none => spec

/-- Outcome of `set_vm_notification_settings`: the Python return value
(`none` when the busy-wait loop has not terminated within the observed
polls), the submitted delta, the wait loop's actions, and the resulting
platform-side VM. -/
structure NotifOutcome where
  result : Option Bool
  submitted : ConfigSpec
  acts : List WAct
  finalVM : VM
deriving DecidableEq, Repr

/-- Translate the busy-wait result into the function's outcome: on task
success the platform has applied the delta; on task error the function
returns `False` and the delta did not take; while still spinning nothing is
decided yet. -/
def notifFinish (vm : VM) (spec : ConfigSpec) (bw : BusyWaitResult) : NotifOutcome :=
  match bw.res with
  | none => ⟨none, spec, bw.acts, vm⟩
  | some true => ⟨some true, spec, bw.acts, applyConfigSpec vm spec⟩
  | some false => ⟨some false, spec, bw.acts, vm⟩

/-- `set_vm_notification_settings(vm, timeout, enabled)`: build the delta
containing only the explicitly supplied fields, submit `ReconfigVM_Task` and
busy-wait on the task (observed for `fuel` polls). -/
def set_vm_notification_settings (task : Nat → TaskState) (fuel : Nat) (vm : VM)
    (timeout : Option Int) (enabled : Option Bool) : NotifOutcome :=
  notifFinish vm (buildNotifSpec timeout enabled) (busyWait task fuel)

/-- The VM lookup loop of the PTP script's `main`: in input order, resolve
each name; found VMs go to the processing list, unresolved names are reported
as warnings only. -/
def lookupAll (inventory : List VM) : List String → List VM × List String
  | [] => ([], [])
  | n :: rest =>
    let r := lookupAll inventory rest
    match get_vm_by_name inventory n with
    | some vm => (vm :: r.1, r.2)
    | none => (r.1, n :: r.2)

/-- The three per-run result buckets of the PTP script's `main`. -/
structure Buckets where
  success : List String
  failed : List String
  skipped : List String
deriving DecidableEq, Repr

/-- The processing loop of the PTP script's `main`: each found VM is handed
to `process_vm` by name (the i-th processed VM draws its tasks from
`plats i`) and bucketed by the returned value:

    if result is True: success
    elif result is None: skipped
    else: failed
-/
def processAll (inventory : List VM) (plats : Nat → Platform) (action : Action) :
    List VM → Nat → Buckets
  | [], _ => ⟨[], [], []⟩
  | vm :: rest, i =>
    let res := (process_vm (plats i) inventory vm.name action).result
    let b := processAll inventory plats action rest (i + 1)
    match res with
    | some true => ⟨vm.name :: b.success, b.failed, b.skipped⟩
    | none => ⟨b.success, b.failed, vm.name :: b.skipped⟩
    | some false => ⟨b.success, vm.name :: b.failed, b.skipped⟩

/-- Outcome of one batch run of the PTP script's `main`: the three buckets,
the not-found warnings, and the process exit code. -/
structure BatchOutcome where
  successNames : List String
  failedNames : List String
  skippedNames : List String
  notFound : List String
  exitCode : Nat
deriving DecidableEq, Repr

/-- The batch portion of the PTP script's `main` (after connection,
confirmation and dry-run handling): resolve the names, exit 0 when nothing
resolved ("No VMs to process"), otherwise process every found VM and exit 1
exactly when the failed bucket is non-empty. -/
def runBatch (inventory : List VM) (plats : Nat → Platform) (names : List String)
    (action : Action) : BatchOutcome :=
  let lk := lookupAll inventory names
  if lk.1 = [] then ⟨[], [], [], lk.2, 0⟩
  else
    let b := processAll inventory plats action lk.1 0
    ⟨b.success, b.failed, b.skipped, lk.2, if b.failed = [] then 0 else 1⟩

/-- Number of precision-clock devices in a device list. -/
def ptpCount (l : List VDevice) : Nat :=
  l.countP (fun d => isPtpDevice d)

/-- The poll/sleep action trace of `n + 1` consecutive polls with a
one-second sleep between each adjacent pair. -/
def sleepPolls : Nat → List WAct
  | 0 => [.poll]
  | n + 1 => WAct.poll :: WAct.sleepOne :: sleepPolls n

/-! Concrete scenario inputs used by counterexamples and witnesses. -/

/-- A powered-on VM with no precision-clock device. -/
def vmOnNoPtp : VM := ⟨"vm1", .poweredOn, [.other 5], none, none⟩

/-- A powered-off VM with no precision-clock device. -/
def vmOffNoPtp : VM := ⟨"vm2", .poweredOff, [], none, none⟩

/-- A powered-on VM that already has a precision-clock device. -/
def vmWithPtp : VM := ⟨"vm3", .poweredOn, [.precisionClock 12 .systemClock], none, none⟩

/-- A powered-off VM carrying notification settings and a PTP device. -/
def vmNotif : VM := ⟨"vm4", .poweredOff, [.precisionClock 7 .systemClock], some true, some 300⟩

/-- A platform on which every task succeeds at its first poll. -/
def allOk : Platform := ⟨fun _ _ => .success⟩

/-- A platform on which the second issued task (index 1, the edit that
follows a power-off) fails with a platform error; every other task
succeeds. -/
def editFail : Platform := ⟨fun i _ => if i = 1 then .error "InvalidDeviceSpec" else .success⟩

/-- A platform on which every task fails immediately. -/
def allFail : Platform := ⟨fun _ _ => .error "InvalidDeviceSpec"⟩

/-- A task that never leaves the running state. -/
def neverTask : Nat → TaskState := fun _ => .running

/-- A task that runs for two polls and then reports an error. -/
def errTask : Nat → TaskState := fun j => if j < 2 then .running else .error "X"

/-- A task that runs for three polls and then succeeds. -/
def spinTask : Nat → TaskState := fun j => if j < 3 then .running else .success

/-- Batch scenario inventory: VMs "A" and "C" exist (powered off, no PTP
device); "B" does not. -/
def demoInv : List VM :=
  [⟨"A", .poweredOff, [], none, none⟩, ⟨"C", .poweredOff, [], none, none⟩]

/-- Batch scenario names, including the missing "B". -/
def demoNames : List String := ["A", "B", "C"]

/-- Batch scenario platforms: the first processed VM ("A") succeeds, every
later one ("C") has its edit submission fail. -/
def demoPlats : Nat → Platform := fun i => if i = 0 then allOk else allFail

/-! Lemmas about the task awaiter. -/

theorem waitSteps_of_success (task : Nat → TaskState) (t k fuel : Nat)
    (h : task k = TaskState.success) :
    waitSteps task t k fuel = ⟨true, [], [WAct.poll]⟩ := by
  cases fuel <;> simp [waitSteps, h]

theorem waitSteps_of_error (task : Nat → TaskState) (t k fuel : Nat) (msg : String)
    (h : task k = TaskState.error msg) :
    waitSteps task t k fuel = ⟨false, [LogMsg.taskFailed msg], [WAct.poll]⟩ := by
  cases fuel <;> simp [waitSteps, h]

theorem wait_for_task_of_success (task : Nat → TaskState) (t : Nat)
    (h : task 0 = TaskState.success) :
    wait_for_task task t = ⟨true, [], [WAct.poll]⟩ :=
  waitSteps_of_success task t 0 (t + 1) h

theorem wait_for_task_of_error (task : Nat → TaskState) (t : Nat) (msg : String)
    (h : task 0 = TaskState.error msg) :
    wait_for_task task t = ⟨false, [LogMsg.taskFailed msg], [WAct.poll]⟩ :=
  waitSteps_of_error task t 0 (t + 1) msg h

theorem waitSteps_of_running (task : Nat → TaskState) (t : Nat)
    (h : ∀ j, j ≤ t + 1 → task j = TaskState.running) :
    ∀ fuel k, k + fuel = t + 1 →
      waitSteps task t k fuel = ⟨false, [LogMsg.timedOutAfter t], sleepPolls fuel⟩ := by
  intro fuel
  induction fuel with
  | zero =>
    intro k hk
    have hr : task k = TaskState.running := h k (by omega)
    simp [waitSteps, hr, sleepPolls]
  | succ f ih =>
    intro k hk
    have hr : task k = TaskState.running := h k (by omega)
    have hnl : ¬ t < k := by omega
    have ihh := ih (k + 1) (by omega)
    simp [waitSteps, hr, hnl, ihh, sleepPolls]

theorem wait_for_task_timeout (task : Nat → TaskState) (t : Nat)
    (h : ∀ j, j ≤ t + 1 → task j = TaskState.running) :
    wait_for_task task t = ⟨false, [LogMsg.timedOutAfter t], sleepPolls (t + 1)⟩ :=
  waitSteps_of_running task t h (t + 1) 0 (by omega)

theorem waitSteps_reaches_error (task : Nat → TaskState) (t k0 : Nat) (msg : String)
    (hk0 : k0 ≤ t + 1) (hrun : ∀ j, j < k0 → task j = TaskState.running)
    (herr : task k0 = TaskState.error msg) :
    ∀ fuel k, k + fuel = t + 1 → k ≤ k0 →
      (waitSteps task t k fuel).ret = false ∧
        (waitSteps task t k fuel).log = [LogMsg.taskFailed msg] := by
  intro fuel
  induction fuel with
  | zero =>
    intro k hk hkk
    have hkeq : k = k0 := by omega
    subst hkeq
    simp [waitSteps, herr]
  | succ f ih =>
    intro k hk hkk
    rcases Nat.lt_or_ge k k0 with hlt | hge
    · have hr : task k = TaskState.running := hrun k hlt
      have hnl : ¬ t < k := by omega
      have ihh := ih (k + 1) (by omega) (by omega)
      simp [waitSteps, hr, hnl, ihh.1, ihh.2]
    · have hkeq : k = k0 := by omega
      subst hkeq
      simp [waitSteps, herr]

theorem wait_for_task_reaches_error (task : Nat → TaskState) (t k0 : Nat) (msg : String)
    (hk0 : k0 ≤ t + 1) (hrun : ∀ j, j < k0 → task j = TaskState.running)
    (herr : task k0 = TaskState.error msg) :
    (wait_for_task task t).ret = false ∧
      (wait_for_task task t).log = [LogMsg.taskFailed msg] :=
  waitSteps_reaches_error task t k0 msg hk0 hrun herr (t + 1) 0 (by omega) (by omega)

/-- C4: for every awaited task, the Task Awaiter's observable outcome is
`TimedOut` — returned value `False` with the timeout diagnostic, distinct
from a `Success` outcome (which returns `True`) and from a `Failure` outcome
(whose diagnostic carries the task error instead) — whenever the configured
timeout elapses while the task is still running; the task is then left
outstanding (still `running` at the moment of return, no cancel issued).
When the task reaches the `error` state, the awaiter returns `False` — never
`True` — with the platform-reported error message attached. -/
theorem c4_task_awaiter_outcomes (t k0 : Nat) (msg : String)
    (t1 t2 : Nat → TaskState)
    (h1 : ∀ j, j ≤ t + 1 → t1 j = TaskState.running)
    (h2 : ∀ j, j < k0 → t2 j = TaskState.running)
    (hk : k0 ≤ t + 1) (he : t2 k0 = TaskState.error msg) :
    (wait_for_task t1 t).ret = false
    ∧ (wait_for_task t1 t).log = [LogMsg.timedOutAfter t]
    ∧ t1 (t + 1) = TaskState.running
    ∧ (wait_for_task t2 t).ret = false
    ∧ (wait_for_task t2 t).log = [LogMsg.taskFailed msg]
    ∧ (wait_for_task t1 t).log ≠ (wait_for_task t2 t).log := by
  have htm := wait_for_task_timeout t1 t h1
  have her := wait_for_task_reaches_error t2 t k0 msg hk h2 he
  refine ⟨by simp [htm], by simp [htm], h1 (t + 1) (Nat.le_refl _), her.1, her.2, ?_⟩
  rw [her.2]
  simp [htm]

theorem c4_task_awaiter_outcomes_witness :
    (wait_for_task neverTask 2).ret = false
    ∧ (wait_for_task neverTask 2).log = [LogMsg.timedOutAfter 2]
    ∧ neverTask (2 + 1) = TaskState.running
    ∧ (wait_for_task errTask 2).ret = false
    ∧ (wait_for_task errTask 2).log = [LogMsg.taskFailed "X"]
    ∧ (wait_for_task neverTask 2).log ≠ (wait_for_task errTask 2).log :=
  c4_task_awaiter_outcomes 2 2 "X" neverTask errTask (fun _ _ => rfl)
    (by decide) (by decide) (by decide)

/-- C5: the claim that both scripts sleep between consecutive task-state
polls is violated by `set_vm_notification_settings`, whose wait loop's body
is `pass`: on a task still running at its second poll the loop polls
repeatedly with no sleep at all, while `wait_for_task` of the PTP script
sleeps one second between every pair of polls on the same task. -/
theorem c5_busy_poll_has_no_sleep :
    (busyWait spinTask 10).acts = [WAct.poll, WAct.poll, WAct.poll, WAct.poll]
    ∧ WAct.sleepOne ∉ (busyWait spinTask 10).acts
    ∧ (busyWait spinTask 10).res = some true
    ∧ (wait_for_task spinTask 300).acts
        = [WAct.poll, WAct.sleepOne, WAct.poll, WAct.sleepOne,
           WAct.poll, WAct.sleepOne, WAct.poll] := by
  decide

/-! Lemmas about the PTP device checks. -/

theorem get_ptp_device_eq_none (vm : VM) (h : has_ptp_device vm = false) :
    get_ptp_device vm = none := by
  rw [has_ptp_device, List.any_eq_false] at h
  rw [get_ptp_device, List.find?_eq_none]
  exact h

theorem ptpCount_eq_zero_of_not_has (vm : VM) (h : has_ptp_device vm = false) :
    ptpCount vm.devices = 0 := by
  rw [has_ptp_device, List.any_eq_false] at h
  rw [ptpCount, List.countP_eq_zero]
  exact h

/-- C10: for every found VM the `read` action is pure and always succeeds:
no platform operation of any kind is issued (no reconfiguration, no power
operation), the VM is unchanged, and the outcome is Success whether or not a
precision-clock device is present. -/
theorem c10_read_is_pure_success (p : Platform) (inventory : List VM)
    (vm_name : String) (vm : VM)
    (hfind : get_vm_by_name inventory vm_name = some vm) :
    process_vm p inventory vm_name Action.read = ⟨some true, [], some vm⟩ := by
  simp [process_vm, hfind]

theorem c10_read_is_pure_success_witness :
    process_vm allOk [vmWithPtp] "vm3" Action.read = ⟨some true, [], some vmWithPtp⟩
    ∧ process_vm allOk [vmOffNoPtp] "vm2" Action.read = ⟨some true, [], some vmOffNoPtp⟩ :=
  ⟨c10_read_is_pure_success allOk [vmWithPtp] "vm3" vmWithPtp (by decide),
   c10_read_is_pure_success allOk [vmOffNoPtp] "vm2" vmOffNoPtp (by decide)⟩

/-- C3: for every found VM that already carries a precision-clock device the
`enable` action returns the skip outcome (`None`, which is neither the
Success value `True` nor the Failed value `False`) and issues zero platform
operations; symmetrically, for every found VM without such a device the
`disable` action skips with zero operations. -/
theorem c3_idempotency_skips (p : Platform) (inventory : List VM)
    (vm_name : String) (vm : VM)
    (hfind : get_vm_by_name inventory vm_name = some vm) :
    (has_ptp_device vm = true →
      (process_vm p inventory vm_name Action.enable).result = none
      ∧ (process_vm p inventory vm_name Action.enable).result ≠ some true
      ∧ (process_vm p inventory vm_name Action.enable).result ≠ some false
      ∧ (process_vm p inventory vm_name Action.enable).ops = [])
    ∧ (has_ptp_device vm = false →
      (process_vm p inventory vm_name Action.disable).result = none
      ∧ (process_vm p inventory vm_name Action.disable).ops = []) := by
  constructor
  · intro h
    refine ⟨?_, ?_, ?_, ?_⟩ <;> simp [process_vm, hfind, enableFlow, h]
  · intro h
    refine ⟨?_, ?_⟩ <;> simp [process_vm, hfind, disableFlow, h]

theorem c3_idempotency_skips_witness :
    ((process_vm allOk [vmWithPtp] "vm3" Action.enable).result = none
      ∧ (process_vm allOk [vmWithPtp] "vm3" Action.enable).result ≠ some true
      ∧ (process_vm allOk [vmWithPtp] "vm3" Action.enable).result ≠ some false
      ∧ (process_vm allOk [vmWithPtp] "vm3" Action.enable).ops = [])
    ∧ ((process_vm allOk [vmOffNoPtp] "vm2" Action.disable).result = none
      ∧ (process_vm allOk [vmOffNoPtp] "vm2" Action.disable).ops = []) :=
  ⟨(c3_idempotency_skips allOk [vmWithPtp] "vm3" vmWithPtp (by decide)).1 (by decide),
   (c3_idempotency_skips allOk [vmOffNoPtp] "vm2" vmOffNoPtp (by decide)).2 (by decide)⟩

/-- C9: calling `remove_ptp_device` directly on a VM that has no
precision-clock device returns `False` and leaves the orchestration state
untouched: no reconfiguration request (indeed no platform operation at all)
is submitted. -/
theorem c9_remove_without_device_fails (p : Platform) (s : ProcState)
    (h : has_ptp_device s.vm = false) :
    remove_ptp_device p s = (false, s) := by
  rw [remove_ptp_device, get_ptp_device_eq_none s.vm h]

theorem c9_remove_without_device_fails_witness :
    remove_ptp_device allOk ⟨vmOffNoPtp, [], 0⟩ = (false, ⟨vmOffNoPtp, [], 0⟩) :=
  c9_remove_without_device_fails allOk ⟨vmOffNoPtp, [], 0⟩ (by decide)

/-- C2: for every found VM without a precision-clock device on a platform
where every task succeeds, the `enable` action issues exactly the platform
operation sequence power-off, reconfigure-add, power-on when the VM is
powered on, and exactly the single reconfigure-add — no power operation —
when it is not powered on. -/
theorem c2_enable_operation_sequence (p : Platform) (inventory : List VM)
    (vm_name : String) (vm : VM)
    (hfind : get_vm_by_name inventory vm_name = some vm)
    (hnop : has_ptp_device vm = false)
    (hp : ∀ i j, p.taskOf i j = TaskState.success) :
    (vm.powerState = PowerState.poweredOn →
      (process_vm p inventory vm_name Action.enable).ops
        = [POp.powerOffTask, POp.reconfigTask addPtpSpec, POp.powerOnTask])
    ∧ (vm.powerState ≠ PowerState.poweredOn →
      (process_vm p inventory vm_name Action.enable).ops
        = [POp.reconfigTask addPtpSpec]) := by
  have hw : ∀ i, (wait_for_task (p.taskOf i) 300).ret = true := fun i => by
    rw [wait_for_task_of_success _ _ (hp i 0)]
  constructor
  · intro hon
    simp [process_vm, hfind, enableFlow, hnop, hon, power_off_vm, hw, enableEdit,
      add_ptp_device, submitReconfig, power_on_vm]
  · intro hoff
    simp [process_vm, hfind, enableFlow, hnop, hoff, enableEdit,
      add_ptp_device, submitReconfig, power_on_vm, hw]

theorem c2_enable_operation_sequence_witness :
    (process_vm allOk [vmOnNoPtp] "vm1" Action.enable).ops
      = [POp.powerOffTask, POp.reconfigTask addPtpSpec, POp.powerOnTask]
    ∧ (process_vm allOk [vmOffNoPtp] "vm2" Action.enable).ops
      = [POp.reconfigTask addPtpSpec] :=
  ⟨(c2_enable_operation_sequence allOk [vmOnNoPtp] "vm1" vmOnNoPtp (by decide)
      (by decide) (fun _ _ => rfl)).1 (by decide),
   (c2_enable_operation_sequence allOk [vmOffNoPtp] "vm2" vmOffNoPtp (by decide)
      (by decide) (fun _ _ => rfl)).2 (by decide)⟩

/-- C1 as stated is false: on this concrete input the VM is powered on at
the start, is powered off during the run, and its edit (device-add) task
fails; `process_vm` ends with the Failed outcome but never issues the
power-on operation — the best-effort power-on restoration step the claim
asserts is not attempted (the source guards it with
`if was_powered_on and success`). -/
theorem c1_counterexample_no_restoration :
    vmOnNoPtp.powerState = PowerState.poweredOn
    ∧ (process_vm editFail [vmOnNoPtp] "vm1" Action.enable).result = some false
    ∧ (process_vm editFail [vmOnNoPtp] "vm1" Action.enable).ops
        = [POp.powerOffTask, POp.reconfigTask addPtpSpec]
    ∧ POp.powerOnTask ∉ (process_vm editFail [vmOnNoPtp] "vm1" Action.enable).ops := by
  decide

theorem has_ptp_of_get_some (vm : VM) (d : VDevice)
    (h : get_ptp_device vm = some d) : has_ptp_device vm = true := by
  rw [get_ptp_device] at h
  rw [has_ptp_device, List.any_eq_true]
  exact ⟨d, List.mem_of_find?_eq_some h, List.find?_some h⟩

/-- C1 amended: for every VM that was powered on at the start of its
orchestration and was powered off during this run, if the edit step fails —
the device-add reconfiguration under `enable` (first half, VM `vm` on
platform `p`) just as the device-remove reconfiguration under `disable`
(second half, VM `vm2` carrying device `d` on platform `p2`) — then the
orchestrator does not attempt to power the VM back on: the issued operations
are exactly power-off then the failed reconfiguration, the VM is left
powered off, and the overall outcome is Failed. -/
theorem c1_edit_failure_leaves_vm_off (p p2 : Platform) (inventory inv2 : List VM)
    (vm_name name2 : String) (vm vm2 : VM) (d : VDevice)
    (hfind : get_vm_by_name inventory vm_name = some vm)
    (hnop : has_ptp_device vm = false)
    (hon : vm.powerState = PowerState.poweredOn)
    (hoff : (wait_for_task (p.taskOf 0) 300).ret = true)
    (hedit : (wait_for_task (p.taskOf 1) 300).ret = false)
    (hfind2 : get_vm_by_name inv2 name2 = some vm2)
    (hdev : get_ptp_device vm2 = some d)
    (hon2 : vm2.powerState = PowerState.poweredOn)
    (hoff2 : (wait_for_task (p2.taskOf 0) 300).ret = true)
    (hedit2 : (wait_for_task (p2.taskOf 1) 300).ret = false) :
    ((process_vm p inventory vm_name Action.enable).result = some false
      ∧ (process_vm p inventory vm_name Action.enable).ops
          = [POp.powerOffTask, POp.reconfigTask addPtpSpec]
      ∧ POp.powerOnTask ∉ (process_vm p inventory vm_name Action.enable).ops
      ∧ ∀ w, (process_vm p inventory vm_name Action.enable).finalVM = some w →
          w.powerState = PowerState.poweredOff)
    ∧ ((process_vm p2 inv2 name2 Action.disable).result = some false
      ∧ (process_vm p2 inv2 name2 Action.disable).ops
          = [POp.powerOffTask, POp.reconfigTask ⟨[⟨DevOperation.remove, d⟩], none, none⟩]
      ∧ POp.powerOnTask ∉ (process_vm p2 inv2 name2 Action.disable).ops
      ∧ ∀ w, (process_vm p2 inv2 name2 Action.disable).finalVM = some w →
          w.powerState = PowerState.poweredOff) := by
  have hptp : has_ptp_device vm2 = true := has_ptp_of_get_some vm2 d hdev
  rw [get_ptp_device] at hdev
  constructor
  · refine ⟨?_, ?_, ?_, ?_⟩ <;>
      simp [process_vm, hfind, enableFlow, hnop, hon, power_off_vm, hoff, enableEdit,
        add_ptp_device, submitReconfig, hedit, power_on_vm]
  · refine ⟨?_, ?_, ?_, ?_⟩ <;>
      simp [process_vm, hfind2, disableFlow, hptp, hon2, power_off_vm, hoff2, disableEdit,
        remove_ptp_device, get_ptp_device, hdev, submitReconfig, hedit2, power_on_vm]

theorem c1_edit_failure_leaves_vm_off_witness :
    ((process_vm editFail [vmOnNoPtp] "vm1" Action.enable).result = some false
      ∧ (process_vm editFail [vmOnNoPtp] "vm1" Action.enable).ops
          = [POp.powerOffTask, POp.reconfigTask addPtpSpec]
      ∧ POp.powerOnTask ∉ (process_vm editFail [vmOnNoPtp] "vm1" Action.enable).ops
      ∧ ∀ w, (process_vm editFail [vmOnNoPtp] "vm1" Action.enable).finalVM = some w →
          w.powerState = PowerState.poweredOff)
    ∧ ((process_vm editFail [vmWithPtp] "vm3" Action.disable).result = some false
      ∧ (process_vm editFail [vmWithPtp] "vm3" Action.disable).ops
          = [POp.powerOffTask,
             POp.reconfigTask
               ⟨[⟨DevOperation.remove, VDevice.precisionClock 12 ClockBacking.systemClock⟩],
                none, none⟩]
      ∧ POp.powerOnTask ∉ (process_vm editFail [vmWithPtp] "vm3" Action.disable).ops
      ∧ ∀ w, (process_vm editFail [vmWithPtp] "vm3" Action.disable).finalVM = some w →
          w.powerState = PowerState.poweredOff) :=
  c1_edit_failure_leaves_vm_off editFail editFail [vmOnNoPtp] [vmWithPtp] "vm1" "vm3"
    vmOnNoPtp vmWithPtp (VDevice.precisionClock 12 ClockBacking.systemClock)
    (by decide) (by decide) (by decide) (by decide) (by decide)
    (by decide) (by decide) (by decide) (by decide) (by decide)

/-! Lemmas about the notification-settings write. -/

theorem notifFinish_submitted (vm : VM) (spec : ConfigSpec) (bw : BusyWaitResult) :
    (notifFinish vm spec bw).submitted = spec := by
  rcases h : bw.res with _ | b
  · simp [notifFinish, h]
  · cases b <;> simp [notifFinish, h]

theorem notifFinish_timeout_unchanged (vm : VM) (spec : ConfigSpec)
    (bw : BusyWaitResult) (h : spec.vmOpNotificationTimeout = none) :
    (notifFinish vm spec bw).finalVM.vmOpNotificationTimeout
      = vm.vmOpNotificationTimeout := by
  rcases hb : bw.res with _ | b
  · simp [notifFinish, hb]
  · cases b <;> simp [notifFinish, hb, applyConfigSpec, h]

theorem notifFinish_enabled_unchanged (vm : VM) (spec : ConfigSpec)
    (bw : BusyWaitResult) (h : spec.vmOpNotificationToAppEnabled = none) :
    (notifFinish vm spec bw).finalVM.vmOpNotificationToAppEnabled
      = vm.vmOpNotificationToAppEnabled := by
  rcases hb : bw.res with _ | b
  · simp [notifFinish, hb]
  · cases b <;> simp [notifFinish, hb, applyConfigSpec, h]

theorem buildNotifSpec_enabled_only (e : Bool) :
    buildNotifSpec none (some e) = ⟨[], some e, none⟩ := rfl

theorem buildNotifSpec_timeout_only (t : Int) :
    buildNotifSpec (some t) none = ⟨[], none, some t⟩ := rfl

/-- C6: a notification-settings write with the timeout argument omitted and
`enabled` supplied submits a delta whose enabled field is set and whose
timeout field is unset, so a pre-existing platform timeout value survives
the write unchanged (partial update, not full overwrite); symmetrically, an
omitted `enabled` stays out of the delta and the platform's enabled value
survives. -/
theorem c6_notification_partial_update (task : Nat → TaskState) (fuel : Nat)
    (vm : VM) (t0 : Int) (e0 : Bool) (e : Bool) (t : Int)
    (hvt : vm.vmOpNotificationTimeout = some t0)
    (hve : vm.vmOpNotificationToAppEnabled = some e0) :
    (set_vm_notification_settings task fuel vm none (some e)).submitted.vmOpNotificationToAppEnabled = some e
    ∧ (set_vm_notification_settings task fuel vm none (some e)).submitted.vmOpNotificationTimeout = none
    ∧ (set_vm_notification_settings task fuel vm none (some e)).finalVM.vmOpNotificationTimeout = some t0
    ∧ (set_vm_notification_settings task fuel vm (some t) none).submitted.vmOpNotificationToAppEnabled = none
    ∧ (set_vm_notification_settings task fuel vm (some t) none).finalVM.vmOpNotificationToAppEnabled = some e0 := by
  refine ⟨?_, ?_, ?_, ?_, ?_⟩
  · rw [set_vm_notification_settings, notifFinish_submitted, buildNotifSpec_enabled_only]
  · rw [set_vm_notification_settings, notifFinish_submitted, buildNotifSpec_enabled_only]
  · rw [set_vm_notification_settings, notifFinish_timeout_unchanged _ _ _ (by rfl), hvt]
  · rw [set_vm_notification_settings, notifFinish_submitted, buildNotifSpec_timeout_only]
  · rw [set_vm_notification_settings, notifFinish_enabled_unchanged _ _ _ (by rfl), hve]

theorem c6_notification_partial_update_witness :
    (set_vm_notification_settings spinTask 10 vmNotif none (some false)).submitted.vmOpNotificationToAppEnabled = some false
    ∧ (set_vm_notification_settings spinTask 10 vmNotif none (some false)).submitted.vmOpNotificationTimeout = none
    ∧ (set_vm_notification_settings spinTask 10 vmNotif none (some false)).finalVM.vmOpNotificationTimeout = some 300
    ∧ (set_vm_notification_settings spinTask 10 vmNotif (some 60) none).submitted.vmOpNotificationToAppEnabled = none
    ∧ (set_vm_notification_settings spinTask 10 vmNotif (some 60) none).finalVM.vmOpNotificationToAppEnabled = some true :=
  c6_notification_partial_update spinTask 10 vmNotif 300 true false 60 rfl rfl

/-! Lemmas tracking the device list through each orchestration helper. -/

theorem power_off_vm_devices (p : Platform) (s : ProcState) :
    (power_off_vm p s).2.vm.devices = s.vm.devices := by
  rw [power_off_vm]; split <;> rfl

theorem power_on_vm_devices (p : Platform) (s : ProcState) :
    (power_on_vm p s).2.vm.devices = s.vm.devices := by
  rw [power_on_vm]; split <;> rfl

theorem add_ptp_device_count (p : Platform) (s : ProcState) :
    ptpCount (add_ptp_device p s).2.vm.devices ≤ ptpCount s.vm.devices + 1 := by
  rw [add_ptp_device, submitReconfig]
  split
  · simp [applyConfigSpec, addPtpSpec, applyDeviceChange, ptpCount, setKey, isPtpDevice]
  · simp

theorem remove_ptp_device_count (p : Platform) (s : ProcState) :
    ptpCount (remove_ptp_device p s).2.vm.devices ≤ ptpCount s.vm.devices := by
  rcases h : get_ptp_device s.vm with _ | d
  · simp [remove_ptp_device, h]
  · simp only [remove_ptp_device, h, submitReconfig]
    split
    · simp only [applyConfigSpec, applyDeviceChange, List.foldl_cons, List.foldl_nil]
      exact (List.filter_sublist _).countP_le _
    · exact Nat.le_refl _

theorem enableEdit_count (p : Platform) (wasOn : Bool) (s1 : ProcState)
    (h0 : ptpCount s1.vm.devices = 0) :
    ptpCount (enableEdit p wasOn s1).2.vm.devices ≤ 1 := by
  have hadd := add_ptp_device_count p s1
  rw [h0] at hadd
  simp only [enableEdit]
  split
  · split <;> simpa [power_on_vm_devices] using hadd
  · exact hadd

theorem disableEdit_count (p : Platform) (wasOn : Bool) (s1 : ProcState)
    (h1 : ptpCount s1.vm.devices ≤ 1) :
    ptpCount (disableEdit p wasOn s1).2.vm.devices ≤ 1 := by
  have hrem := Nat.le_trans (remove_ptp_device_count p s1) h1
  simp only [disableEdit]
  split
  · split <;> simpa [power_on_vm_devices] using hrem
  · exact hrem

theorem enableFlow_count (p : Platform) (s0 : ProcState)
    (h : ptpCount s0.vm.devices ≤ 1) :
    ptpCount (enableFlow p s0).2.vm.devices ≤ 1 := by
  simp only [enableFlow]
  split
  · exact h
  · rename_i hnp
    have h0 : ptpCount s0.vm.devices = 0 :=
      ptpCount_eq_zero_of_not_has s0.vm (Bool.of_not_eq_true hnp)
    split
    · split
      · exact enableEdit_count p true _ (by rw [power_off_vm_devices, h0])
      · simp [power_off_vm_devices, h0]
    · exact enableEdit_count p false s0 h0

theorem disableFlow_count (p : Platform) (s0 : ProcState)
    (h : ptpCount s0.vm.devices ≤ 1) :
    ptpCount (disableFlow p s0).2.vm.devices ≤ 1 := by
  simp only [disableFlow]
  split
  · split
    · split
      · exact disableEdit_count p true _ (by rwa [power_off_vm_devices])
      · simpa [power_off_vm_devices] using h
    · exact disableEdit_count p false s0 h
  · exact h

/-- C7: for every found VM with at most one precision-clock device, every
action (`read`, `enable`, `disable`) on every platform preserves the
at-most-one invariant on the resulting VM; moreover `enable` is
check-then-act: when a precision-clock device is already present it submits
no operation at all, so a device-add is only ever submitted after the check
found no such device. -/
theorem c7_at_most_one_ptp_device (p : Platform) (inventory : List VM)
    (vm_name : String) (vm : VM) (act : Action)
    (hfind : get_vm_by_name inventory vm_name = some vm)
    (hinv : ptpCount vm.devices ≤ 1) :
    (∀ w, (process_vm p inventory vm_name act).finalVM = some w →
      ptpCount w.devices ≤ 1)
    ∧ (has_ptp_device vm = true →
      (process_vm p inventory vm_name Action.enable).ops = []) := by
  constructor
  · intro w hw
    cases act with
    | read =>
      simp [process_vm, hfind] at hw
      rw [← hw]; exact hinv
    | enable =>
      simp only [process_vm, hfind] at hw
      have := enableFlow_count p ⟨vm, [], 0⟩ hinv
      simp only [Option.some_inj] at hw
      rw [← hw]; exact this
    | disable =>
      simp only [process_vm, hfind] at hw
      have := disableFlow_count p ⟨vm, [], 0⟩ hinv
      simp only [Option.some_inj] at hw
      rw [← hw]; exact this
  · intro h
    simp [process_vm, hfind, enableFlow, h]

theorem c7_at_most_one_ptp_device_witness :
    (∀ w, (process_vm allOk [vmOnNoPtp] "vm1" Action.enable).finalVM = some w →
      ptpCount w.devices ≤ 1)
    ∧ (has_ptp_device vmWithPtp = true →
      (process_vm allOk [vmWithPtp] "vm3" Action.enable).ops = []) :=
  ⟨(c7_at_most_one_ptp_device allOk [vmOnNoPtp] "vm1" vmOnNoPtp Action.enable
      (by decide) (by decide)).1,
   (c7_at_most_one_ptp_device allOk [vmWithPtp] "vm3" vmWithPtp Action.enable
      (by decide) (by decide)).2⟩

/-! Lemmas about the batch runner. -/

theorem get_vm_by_name_name (inventory : List VM) (n : String) (vm : VM)
    (h : get_vm_by_name inventory n = some vm) : vm.name = n := by
  have := List.find?_some h
  simpa using this

theorem get_vm_by_name_self (inventory : List VM) (n : String) (vm : VM)
    (h : get_vm_by_name inventory n = some vm) :
    get_vm_by_name inventory vm.name = some vm := by
  rw [get_vm_by_name_name inventory n vm h]
  exact h

theorem mem_lookupAll_found (inventory : List VM) (vm : VM) :
    ∀ names : List String, vm ∈ (lookupAll inventory names).1 →
      get_vm_by_name inventory vm.name = some vm := by
  intro names
  induction names with
  | nil => simp [lookupAll]
  | cons n rest ih =>
    rcases h : get_vm_by_name inventory n with _ | w
    · simpa [lookupAll, h] using ih
    · simp only [lookupAll, h, List.mem_cons]
      rintro (rfl | hmem)
      · exact get_vm_by_name_self inventory n vm h
      · exact ih hmem

theorem mem_lookupAll_notFound (inventory : List VM) (n : String) :
    ∀ names : List String, n ∈ names → get_vm_by_name inventory n = none →
      n ∈ (lookupAll inventory names).2 := by
  intro names
  induction names with
  | nil => simp
  | cons m rest ih =>
    intro hmem hnone
    rcases List.mem_cons.mp hmem with rfl | hmem'
    · simp [lookupAll, hnone]
    · rcases h : get_vm_by_name inventory m with _ | w <;>
        simp [lookupAll, h, ih hmem' hnone]

theorem processAll_mem (inventory : List VM) (plats : Nat → Platform)
    (act : Action) (n : String) :
    ∀ (l : List VM) (i : Nat),
      (n ∈ (processAll inventory plats act l i).success
        ∨ n ∈ (processAll inventory plats act l i).failed
        ∨ n ∈ (processAll inventory plats act l i).skipped) →
      ∃ vm, vm ∈ l ∧ vm.name = n := by
  intro l
  induction l with
  | nil => intro i h; simp [processAll] at h
  | cons vm rest ih =>
    intro i h
    rcases hres : (process_vm (plats i) inventory vm.name act).result with _ | b
    · simp only [processAll, hres, List.mem_cons] at h
      rcases h with h | h | (h | h)
      · obtain ⟨w, hw, hn⟩ := ih (i + 1) (Or.inl h)
        exact ⟨w, List.mem_cons_of_mem _ hw, hn⟩
      · obtain ⟨w, hw, hn⟩ := ih (i + 1) (Or.inr (Or.inl h))
        exact ⟨w, List.mem_cons_of_mem _ hw, hn⟩
      · exact ⟨vm, List.mem_cons_self _ _, h.symm⟩
      · obtain ⟨w, hw, hn⟩ := ih (i + 1) (Or.inr (Or.inr h))
        exact ⟨w, List.mem_cons_of_mem _ hw, hn⟩
    · cases b with
      | true =>
        simp only [processAll, hres, List.mem_cons] at h
        rcases h with (h | h) | h | h
        · exact ⟨vm, List.mem_cons_self _ _, h.symm⟩
        · obtain ⟨w, hw, hn⟩ := ih (i + 1) (Or.inl h)
          exact ⟨w, List.mem_cons_of_mem _ hw, hn⟩
        · obtain ⟨w, hw, hn⟩ := ih (i + 1) (Or.inr (Or.inl h))
          exact ⟨w, List.mem_cons_of_mem _ hw, hn⟩
        · obtain ⟨w, hw, hn⟩ := ih (i + 1) (Or.inr (Or.inr h))
          exact ⟨w, List.mem_cons_of_mem _ hw, hn⟩
      | false =>
        simp only [processAll, hres, List.mem_cons] at h
        rcases h with h | (h | h) | h
        · obtain ⟨w, hw, hn⟩ := ih (i + 1) (Or.inl h)
          exact ⟨w, List.mem_cons_of_mem _ hw, hn⟩
        · exact ⟨vm, List.mem_cons_self _ _, h.symm⟩
        · obtain ⟨w, hw, hn⟩ := ih (i + 1) (Or.inr (Or.inl h))
          exact ⟨w, List.mem_cons_of_mem _ hw, hn⟩
        · obtain ⟨w, hw, hn⟩ := ih (i + 1) (Or.inr (Or.inr h))
          exact ⟨w, List.mem_cons_of_mem _ hw, hn⟩

/-- C8: in every batch run, a VM name that does not resolve is excluded from
the success, failed and skipped buckets and appears only among the not-found
warnings; the process exit code is 1 exactly when the failed bucket is
non-empty, and in particular it is 0 when every resolved VM succeeded or was
skipped and also when no VM resolved at all. -/
theorem c8_batch_buckets_and_exit_code (inventory : List VM)
    (plats : Nat → Platform) (names : List String) (act : Action) :
    (∀ n, n ∈ names → get_vm_by_name inventory n = none →
      n ∉ (runBatch inventory plats names act).successNames
      ∧ n ∉ (runBatch inventory plats names act).failedNames
      ∧ n ∉ (runBatch inventory plats names act).skippedNames
      ∧ n ∈ (runBatch inventory plats names act).notFound)
    ∧ ((runBatch inventory plats names act).exitCode = 1
        ↔ (runBatch inventory plats names act).failedNames ≠ [])
    ∧ ((lookupAll inventory names).1 = []
        → (runBatch inventory plats names act).exitCode = 0) := by
  refine ⟨?_, ?_, ?_⟩
  · intro n hn hnone
    by_cases hemp : (lookupAll inventory names).1 = []
    · simp only [runBatch, if_pos hemp]
      exact ⟨by simp, by simp, by simp, mem_lookupAll_notFound inventory n names hn hnone⟩
    · simp only [runBatch, if_neg hemp]
      have key : ∀ hmem :
          n ∈ (processAll inventory plats act (lookupAll inventory names).1 0).success
          ∨ n ∈ (processAll inventory plats act (lookupAll inventory names).1 0).failed
          ∨ n ∈ (processAll inventory plats act (lookupAll inventory names).1 0).skipped,
          False := by
        intro hmem
        obtain ⟨vm, hvm, hname⟩ :=
          processAll_mem inventory plats act n (lookupAll inventory names).1 0 hmem
        have hfound := mem_lookupAll_found inventory vm names hvm
        rw [hname, hnone] at hfound
        exact Option.noConfusion hfound
      exact ⟨fun h => key (Or.inl h), fun h => key (Or.inr (Or.inl h)),
        fun h => key (Or.inr (Or.inr h)),
        mem_lookupAll_notFound inventory n names hn hnone⟩
  · by_cases hemp : (lookupAll inventory names).1 = []
    · simp [runBatch, hemp]
    · simp only [runBatch, if_neg hemp]
      by_cases hf : (processAll inventory plats act (lookupAll inventory names).1 0).failed = [] <;>
        simp [hf]
  · intro hemp
    simp [runBatch, hemp]

theorem c8_batch_buckets_and_exit_code_witness :
    (runBatch demoInv demoPlats demoNames Action.enable).successNames = ["A"]
    ∧ (runBatch demoInv demoPlats demoNames Action.enable).failedNames = ["C"]
    ∧ (runBatch demoInv demoPlats demoNames Action.enable).skippedNames = []
    ∧ (runBatch demoInv demoPlats demoNames Action.enable).exitCode = 1
    ∧ "B" ∉ (runBatch demoInv demoPlats demoNames Action.enable).successNames
    ∧ "B" ∉ (runBatch demoInv demoPlats demoNames Action.enable).failedNames
    ∧ "B" ∉ (runBatch demoInv demoPlats demoNames Action.enable).skippedNames
    ∧ "B" ∈ (runBatch demoInv demoPlats demoNames Action.enable).notFound := by
  have h := c8_batch_buckets_and_exit_code demoInv demoPlats demoNames Action.enable
  have hb := h.1 "B" (by decide) (by decide)
  exact ⟨by decide, by decide, by decide, by decide, hb.1, hb.2.1, hb.2.2.1, hb.2.2.2⟩

end VcfVm
